import Mathlib

/-!
Shallow embedding of the AI-advisor chat session code of the Car repository.

The Request-Response transport strategy is implemented by the AiAgent
component (src/carvue/src/components/AiAgent/index.vue) together with the
agent API client (the axios module exporting sendAgentMessage).  A second,
simpler request-response chat page lives in src/carvue/src/views/Chat.vue.
The component's reactive refs become fields of an explicit state record;
the asynchronous backend call is embedded by passing the call's outcome
(success value or thrown error) as an explicit argument; browser side
effects (HTTP calls, toasts, router navigation) are collected in an
effect list.
-/

/-- Model of the JavaScript String.prototype.trim used by the source:
strip leading and trailing whitespace characters. -/
def jsTrim (s : String) : String :=
  String.mk (((s.data.dropWhile Char.isWhitespace).reverse.dropWhile
    Char.isWhitespace).reverse)

/-- A user id is a string or a number (the user_id field of AgentChatRequest
is typed string or number in the source). -/
inductive UserId where
  | str (s : String)
  | num (n : Int)
deriving DecidableEq

/-- Request body of the agent endpoint, from the AgentChatRequest TS
interface: message plus an optional user_id. -/
structure AgentChatRequest where
  message : String
  user_id : Option UserId := none
deriving DecidableEq

/-- Response body of the agent endpoint, from the AgentChatResponse TS
interface: reply text, step count, intent (nullable string), elapsed time. -/
structure AgentChatResponse where
  response : String
  steps : Nat
  intent : Option String
  elapsed_ms : Nat
deriving DecidableEq

/-- Message role, from the IChatMessage interface in the AiAgent component. -/
inductive Role where
  | user
  | ai
deriving DecidableEq

/-- One transcript entry, from the IChatMessage interface: a field that is
absent on the JavaScript object is none here.  The intent field of a reply
is itself nullable, hence the nested option. -/
structure ChatMessage where
  role : Role
  content : String
  isError : Bool := false
  steps : Option Nat := none
  intent : Option (Option String) := none
  elapsed_ms : Option Nat := none
deriving DecidableEq

/-- Error thrown by the axios call: optional HTTP status
(error.response?.status), optional backend detail string
(error.response?.data?.detail), and the error's own message string. -/
structure ApiError where
  status : Option Nat := none
  detail : Option String := none
  message : String := ""
deriving DecidableEq

/-- Outcome of the awaited sendAgentMessage call: the resolved response or
the thrown error. -/
inductive SendOutcome where
  | success (r : AgentChatResponse)
  | failure (e : ApiError)
deriving DecidableEq

/-- Observable browser side effects of the component code: an HTTP call to
the agent endpoint, the HTTP call of the Chat.vue page, the getUserInfo
call, a vant toast, and a router navigation. -/
inductive Effect where
  | agentCall (req : AgentChatRequest)
  | chatCall (message : String)
  | userInfoCall
  | toast (msg : String)
  | navigate (path : String)
deriving DecidableEq

/-- Reactive state of the AiAgent component: window flag, typing flag,
input box, transcript, stored credential (localStorage token) and the
fetched current user (only its id is ever read). -/
structure AgentState where
  isOpen : Bool
  isTyping : Bool
  inputText : String
  messages : List ChatMessage
  token : Option String
  currentUser : Option UserId
deriving DecidableEq

/-- The fixed welcome assistant turn pushed on first open. -/
def welcomeMsg : ChatMessage :=
  { role := .ai
    content := "你好！我是 Jarvis，你的智能选车顾问。\n告诉我你的预算、用途或偏好，我来帮你找车！" }

/-- The user turn pushed by sendMessage. -/
def mkUserMsg (text : String) : ChatMessage :=
  { role := .user, content := text }

/-- The assistant turn pushed on a successful agent reply: full text plus
the steps, intent and elapsed_ms metadata copied from the response. -/
def mkAgentReply (r : AgentChatResponse) : ChatMessage :=
  { role := .ai
    content := r.response
    steps := some r.steps
    intent := some r.intent
    elapsed_ms := some r.elapsed_ms }

/-- JavaScript a or-else b on a possibly-absent string: an absent or empty
(falsy) string falls through to the alternative. -/
def jsOrStr (a : Option String) (b : String) : String :=
  match a with
  | some s => if s = "" then b else s
  | none => b

/-- The human-readable error text of the catch branch:
error.response?.data?.detail, or else error.message, or else the fixed
fallback text. -/
def errMsgOf (e : ApiError) : String :=
  jsOrStr e.detail (jsOrStr (some e.message) "请求失败，请稍后重试")

/-- The error-marked assistant turn pushed in the catch branch. -/
def mkErrorReply (msg : String) : ChatMessage :=
  { role := .ai
    content := "抱歉，发生了错误：" ++ msg
    isError := true }

/-- Embedding of sendMessage of the AiAgent component.  The guard returns
with no mutation on blank input or while typing; otherwise the user turn is
pushed, the input cleared, the typing flag set, and the awaited call's
outcome is dispatched: success pushes the reply turn; a 401 error clears
the token, toasts, navigates to login and closes the window; any other
error pushes one error-marked turn and toasts.  The finally block clears
the typing flag on every path. -/
def sendMessage (s : AgentState) (outcome : SendOutcome) :
    AgentState × List Effect :=
  let text := jsTrim s.inputText
  if text = "" ∨ s.isTyping = true then (s, [])
  else
    let s1 : AgentState :=
      { s with
        messages := s.messages ++ [mkUserMsg text]
        inputText := ""
        isTyping := true }
    let req : AgentChatRequest := { message := text, user_id := s.currentUser }
    match outcome with
    | .success r =>
        ({ s1 with
            messages := s1.messages ++ [mkAgentReply r]
            isTyping := false },
          [.agentCall req])
    | .failure e =>
        if e.status = some 401 then
          ({ s1 with token := none, isOpen := false, isTyping := false },
            [.agentCall req, .toast "登录已过期，请重新登录", .navigate "/login"])
        else
          ({ s1 with
              messages := s1.messages ++ [mkErrorReply (errMsgOf e)]
              isTyping := false },
            [.agentCall req, .toast "Agent 请求失败"])

/-- Embedding of toggleWindow of the AiAgent component.  fetchResult is the
outcome of the awaited fetchUserInfo call (the fetched user id, or none on
failure or missing id), consulted only when the window opens with a token
and no user yet. -/
def toggleWindow (s : AgentState) (fetchResult : Option UserId) :
    AgentState × List Effect :=
  let s0 : AgentState := { s with isOpen := !s.isOpen }
  if s0.isOpen then
    match s.token with
    | none =>
        ({ s0 with isOpen := false }, [.toast "请先登录", .navigate "/login"])
    | some _ =>
        let step :=
          if s.currentUser.isNone then
            ({ s0 with currentUser := fetchResult }, [Effect.userInfoCall])
          else (s0, ([] : List Effect))
        let s2 : AgentState :=
          if step.1.messages = [] then
            { step.1 with messages := [welcomeMsg] }
          else step.1
        (s2, step.2)
  else (s0, [])

/-- Reactive state of the Chat.vue page: input box, transcript, loading
flag. -/
structure ChatState where
  message : String
  chatList : List ChatMessage
  loading : Bool
deriving DecidableEq

/-- Outcome of the awaited axios.post of the Chat.vue page: the answer
string of the response, or a thrown error (its contents are unused). -/
inductive ChatOutcome where
  | success (answer : String)
  | failure
deriving DecidableEq

/-- The fixed apology assistant turn pushed by the Chat.vue catch branch. -/
def apologyMsg : ChatMessage :=
  { role := .ai, content := "抱歉，我现在遇到了一点技术问题，请稍后再试。" }

/-- Embedding of onSend of Chat.vue: guard on blank (trimmed) input or a
pending reply; otherwise push the untrimmed user text, clear the input, set
loading, issue the call, push the answer turn on success or toast and push
the fixed apology turn on failure, and clear loading in the finally block. -/
def onSend (s : ChatState) (outcome : ChatOutcome) :
    ChatState × List Effect :=
  if jsTrim s.message = "" ∨ s.loading = true then (s, [])
  else
    let userMsg := s.message
    let s1 : ChatState :=
      { s with
        chatList := s.chatList ++ [mkUserMsg userMsg]
        message := ""
        loading := true }
    match outcome with
    | .success answer =>
        ({ s1 with
            chatList := s1.chatList ++ [{ role := .ai, content := answer }]
            loading := false },
          [.chatCall userMsg])
    | .failure =>
        ({ s1 with
            chatList := s1.chatList ++ [apologyMsg]
            loading := false },
          [.chatCall userMsg, .toast "服务开小差了，请稍后再试"])

/-- Error taxonomy of the session lifecycle, from the spec's state machine. -/
inductive ErrorKind where
  | AuthExpired
  | Transient
deriving DecidableEq

/-- Lifecycle states of the chat session, from the spec's state machine. -/
inductive SessionPhase where
  | Closed
  | Connecting
  | Opened
  | Closing
  | Errored (k : ErrorKind)
deriving DecidableEq

/-- Modelled from the spec: the Streaming-strategy transport adapter (the
persistent-channel chat client) is not present under src/, so its
channel-closure handler is modelled from the spec's words: connection
closure code 1008 is reserved to mean credential invalid or expired and
yields Errored AuthExpired; any other closure code yields Errored
Transient. -/
def streamingClosureState (code : Nat) : SessionPhase :=
  if code = 1008 then .Errored .AuthExpired else .Errored .Transient

/-- One externally triggered operation on the AiAgent component: toggling
the chat surface (with the outcome of the user-info fetch), a send (with
the outcome of the backend call), typing into the input box, and an
external change of the stored credential (login or logout elsewhere). -/
inductive AgentOp where
  | toggle (fetchResult : Option UserId)
  | send (outcome : SendOutcome)
  | setInput (t : String)
  | setToken (t : Option String)

/-- Apply one operation to the component state. -/
def stepOp (s : AgentState) : AgentOp → AgentState
  | .toggle f => (toggleWindow s f).1
  | .send o => (sendMessage s o).1
  | .setInput t => { s with inputText := t }
  | .setToken t => { s with token := t }

/-- The component's state right after setup: window closed, not typing,
empty input and empty transcript; the stored credential is whatever
localStorage holds; currentUser is the result of the onMounted fetch. -/
def initState (tok : Option String) (user : Option UserId) : AgentState :=
  { isOpen := false
    isTyping := false
    inputText := ""
    messages := []
    token := tok
    currentUser := user }

/-- Run a sequence of operations from a state. -/
def runOps (s : AgentState) : List AgentOp → AgentState
  | [] => s
  | op :: rest => runOps (stepOp s op) rest

/-- Invariant: no transcript entry past the first is the welcome turn. -/
def welcomeOnlyFirst (l : List ChatMessage) : Prop :=
  ∀ m ∈ l.tail, m ≠ welcomeMsg

/-- A 2001-character input string, used to exercise the absent client-side
upper length bound. -/
def longA : String := String.mk (List.replicate 2001 'a')

/-- Component state whose input box holds the 2001-character string. -/
def cexState : AgentState :=
  { isOpen := true, isTyping := false, inputText := longA, messages := [],
    token := some "t", currentUser := none }

/-- A minimal successful backend reply. -/
def cexResp : AgentChatResponse :=
  { response := "好的。", steps := 1, intent := none, elapsed_ms := 10 }

/-- Concrete component state for the request-response happy-path scenario. -/
def wState1 : AgentState :=
  { isOpen := true, isTyping := false, inputText := "对比两款车",
    messages := [welcomeMsg], token := some "tok", currentUser := some (.num 42) }

/-- The scenario reply of the spec: steps 3, intent chat, elapsed 850 ms. -/
def wResp1 : AgentChatResponse :=
  { response := "两款车对比如下。", steps := 3, intent := some "chat",
    elapsed_ms := 850 }

/-- Concrete component state for the server-error scenario. -/
def wState2 : AgentState :=
  { isOpen := true, isTyping := false, inputText := "推荐一款SUV",
    messages := [], token := some "tok", currentUser := none }

/-- A server error: HTTP 500 with a backend detail string. -/
def wErr2 : ApiError :=
  { status := some 500, detail := some "内部服务器错误", message := "Request failed" }

/-- Concrete Chat.vue state for the failure scenario. -/
def wChat2 : ChatState :=
  { message := "帮我推荐", chatList := [], loading := false }

/-- Concrete component state for the expired-session scenario. -/
def wState3 : AgentState :=
  { isOpen := true, isTyping := false, inputText := "继续",
    messages := [welcomeMsg], token := some "expired-tok",
    currentUser := some (.num 7) }

/-- A credential rejection: HTTP 401. -/
def wErr3 : ApiError :=
  { status := some 401, detail := none, message := "Unauthorized" }

/-- Concrete component state with no stored credential and a closed window. -/
def wState4 : AgentState :=
  { isOpen := false, isTyping := false, inputText := "",
    messages := [], token := none, currentUser := none }

/-- Concrete component state for the indicator-clearing scenario. -/
def wState5 : AgentState :=
  { isOpen := true, isTyping := false, inputText := "20万的SUV",
    messages := [], token := some "tok", currentUser := none }

/-- A network failure: no HTTP response at all. -/
def wErr5 : ApiError :=
  { status := none, detail := none, message := "Network Error" }

/-- Concrete Chat.vue state for the indicator-clearing scenario. -/
def wChat5 : ChatState :=
  { message := "保养多少钱", chatList := [], loading := false }

/-- Concrete component state whose input carries surrounding whitespace. -/
def wState6 : AgentState :=
  { isOpen := true, isTyping := false, inputText := "  帮我选车  ",
    messages := [], token := some "tok", currentUser := some (.str "u-9") }

/-- A successful reply used alongside wState6. -/
def wResp6 : AgentChatResponse :=
  { response := "可以。", steps := 2, intent := some "search", elapsed_ms := 120 }

/-- Concrete component state with a whitespace-only input box. -/
def wState8 : AgentState :=
  { isOpen := true, isTyping := false, inputText := "  \t ",
    messages := [welcomeMsg], token := some "tok", currentUser := none }

/-- A successful reply used alongside wState8 (it must be ignored). -/
def wResp8 : AgentChatResponse :=
  { response := "忽略。", steps := 1, intent := none, elapsed_ms := 5 }

/-- Concrete Chat.vue state with a reply still pending. -/
def wChat8 : ChatState :=
  { message := "问题", chatList := [], loading := true }

/-- Concrete component state with a longer transcript, for the 401 case. -/
def wState10 : AgentState :=
  { isOpen := true, isTyping := false, inputText := "查询订单",
    messages := [welcomeMsg, mkUserMsg "你好", mkAgentReply cexResp],
    token := some "old-tok", currentUser := some (.num 3) }

/-- A credential rejection carrying a backend detail string. -/
def wErr10 : ApiError :=
  { status := some 401, detail := some "Token 已失效", message := "Unauthorized" }

/-- Dropping whitespace from an all-letter replicate list drops nothing. -/
lemma dropWhile_ws_replicate_a (m : Nat) :
    List.dropWhile Char.isWhitespace (List.replicate (m+1) 'a')
      = List.replicate (m+1) 'a' := by
  rw [List.replicate_succ, List.dropWhile_cons,
    if_neg (show ¬(Char.isWhitespace 'a' = true) by decide)]

/-- Trimming the 2001-letter string leaves it unchanged. -/
lemma jsTrim_longA : jsTrim longA = longA := by
  show jsTrim (String.mk (List.replicate (2000+1) 'a')) = _
  unfold jsTrim
  rw [show (String.mk (List.replicate (2000+1) 'a')).data
      = List.replicate (2000+1) 'a' from rfl]
  rw [dropWhile_ws_replicate_a, List.reverse_replicate,
    dropWhile_ws_replicate_a, List.reverse_replicate]
  rfl

/-- The 2001-letter string is not the empty string. -/
lemma longA_ne_empty : longA ≠ "" := by
  unfold longA
  intro h
  have h2 : (List.replicate 2001 'a').length = ([] : List Char).length :=
    congrArg List.length (congrArg String.data h)
  rw [List.length_replicate, List.length_nil] at h2
  exact absurd h2 (by decide)

/-- The 2001-letter string has length 2001. -/
lemma longA_length : longA.length = 2001 := by
  show (String.mk (List.replicate 2001 'a')).length = 2001
  rw [String.length]
  exact List.length_replicate 2001 'a'

/-- A user turn is never the welcome turn (the roles differ). -/
lemma mkUserMsg_ne_welcome (t : String) : mkUserMsg t ≠ welcomeMsg := by
  intro h
  have hrole : Role.user = Role.ai := congrArg ChatMessage.role h
  exact absurd hrole (by decide)

/-- A successful-reply turn is never the welcome turn (it carries steps
metadata, the welcome turn does not). -/
lemma mkAgentReply_ne_welcome (r : AgentChatResponse) :
    mkAgentReply r ≠ welcomeMsg := by
  intro h
  have hsteps : some r.steps = (none : Option Nat) :=
    congrArg ChatMessage.steps h
  exact absurd hsteps (by simp)

/-- An error-marked turn is never the welcome turn (the flags differ). -/
lemma mkErrorReply_ne_welcome (m : String) : mkErrorReply m ≠ welcomeMsg := by
  intro h
  have herr : true = false := congrArg ChatMessage.isError h
  exact absurd herr (by decide)

/-- Appending a non-welcome turn preserves the welcome-only-first
invariant. -/
lemma welcomeOnlyFirst_append (l : List ChatMessage) (x : ChatMessage)
    (hl : welcomeOnlyFirst l) (hx : x ≠ welcomeMsg) :
    welcomeOnlyFirst (l ++ [x]) := by
  cases l with
  | nil => intro m hm; simp at hm
  | cons a t =>
      intro m hm
      simp only [List.cons_append, List.tail_cons] at hm
      rcases List.mem_append.1 hm with h | h
      · exact hl m (by simpa using h)
      · simp only [List.mem_singleton] at h
        subst h
        exact hx

/-- sendMessage leaves the transcript unchanged, appends only the user
turn, or appends the user turn followed by one non-welcome assistant
turn. -/
lemma sendMessage_messages_shape (s : AgentState) (o : SendOutcome) :
    (sendMessage s o).1.messages = s.messages ∨
    (sendMessage s o).1.messages = s.messages ++ [mkUserMsg (jsTrim s.inputText)] ∨
    ∃ x, x ≠ welcomeMsg ∧
      (sendMessage s o).1.messages =
        (s.messages ++ [mkUserMsg (jsTrim s.inputText)]) ++ [x] := by
  unfold sendMessage
  by_cases hg : jsTrim s.inputText = "" ∨ s.isTyping = true
  · left; simp [hg]
  · cases o with
    | success r =>
        right; right
        exact ⟨mkAgentReply r, mkAgentReply_ne_welcome r, by simp [hg]⟩
    | failure e =>
        by_cases h401 : e.status = some 401
        · right; left; simp [hg, h401]
        · right; right
          exact ⟨mkErrorReply (errMsgOf e), mkErrorReply_ne_welcome _,
            by simp [hg, h401]⟩

/-- toggleWindow leaves the transcript unchanged, except that opening on an
empty transcript makes it exactly the one welcome turn. -/
lemma toggleWindow_messages_shape (s : AgentState) (f : Option UserId) :
    (toggleWindow s f).1.messages = s.messages ∨
    (s.messages = [] ∧ (toggleWindow s f).1.messages = [welcomeMsg]) := by
  unfold toggleWindow
  by_cases ho : s.isOpen
  · left; simp [ho]
  · cases htok : s.token with
    | none => left; simp [ho, htok]
    | some tk =>
        by_cases hcu : s.currentUser.isNone
        · by_cases hm : s.messages = []
          · right; exact ⟨hm, by simp [ho, htok, hcu, hm]⟩
          · left; simp [ho, htok, hcu, hm]
        · by_cases hm : s.messages = []
          · right; exact ⟨hm, by simp [ho, htok, hcu, hm]⟩
          · left; simp [ho, htok, hcu, hm]

/-- Every component operation preserves the welcome-only-first invariant. -/
lemma stepOp_preserves (s : AgentState) (op : AgentOp)
    (h : welcomeOnlyFirst s.messages) :
    welcomeOnlyFirst (stepOp s op).messages := by
  cases op with
  | setInput t => exact h
  | setToken t => exact h
  | send o =>
      rcases sendMessage_messages_shape s o with hs | hs | ⟨x, hx, hs⟩
      · rw [stepOp, hs]; exact h
      · rw [stepOp, hs]
        exact welcomeOnlyFirst_append _ _ h (mkUserMsg_ne_welcome _)
      · rw [stepOp, hs]
        exact welcomeOnlyFirst_append _ _
          (welcomeOnlyFirst_append _ _ h (mkUserMsg_ne_welcome _)) hx
  | toggle f =>
      rcases toggleWindow_messages_shape s f with hs | ⟨hm, hs⟩
      · rw [stepOp, hs]; exact h
      · rw [stepOp, hs]
        intro m hm2
        simp at hm2

/-- Running any operation sequence preserves the invariant. -/
lemma runOps_preserves (ops : List AgentOp) (s : AgentState)
    (h : welcomeOnlyFirst s.messages) :
    welcomeOnlyFirst (runOps s ops).messages := by
  induction ops generalizing s with
  | nil => exact h
  | cons op rest ih => exact ih _ (stepOp_preserves s op h)

/-- Under the invariant the welcome turn occurs at most once, and never
past the first entry. -/
lemma count_welcome_le_one (l : List ChatMessage) (h : welcomeOnlyFirst l) :
    l.count welcomeMsg ≤ 1 ∧ l.tail.count welcomeMsg = 0 := by
  have htail : l.tail.count welcomeMsg = 0 := by
    rw [List.count_eq_zero]
    intro hmem
    exact h welcomeMsg hmem rfl
  refine ⟨?_, htail⟩
  cases l with
  | nil => simp
  | cons a t =>
      rw [List.count_cons]
      have ht : t.count welcomeMsg = 0 := by simpa using htail
      rw [ht]
      split <;> omega

/-- C1: under the Request-Response strategy, a user send (non-blank input,
no reply pending) whose backend call succeeds appends, in the single state
transition of sendMessage, exactly one assistant turn after the user turn;
the assistant turn carries the full reply text and exactly the steps,
intent and elapsed_ms of the response, and the transition also issues
exactly the one backend call, so no open-but-partially-empty assistant
turn is ever observable. -/
theorem rr_success_single_finalized_turn (s : AgentState) (r : AgentChatResponse)
    (hne : jsTrim s.inputText ≠ "") (ht : s.isTyping = false) :
    (sendMessage s (.success r)).1.messages =
      s.messages ++ [mkUserMsg (jsTrim s.inputText), mkAgentReply r] ∧
    mkAgentReply r =
      { role := .ai, content := r.response, isError := false,
        steps := some r.steps, intent := some r.intent,
        elapsed_ms := some r.elapsed_ms } ∧
    (sendMessage s (.success r)).2 =
      [.agentCall { message := jsTrim s.inputText, user_id := s.currentUser }] := by
  refine ⟨?_, rfl, ?_⟩ <;> simp [sendMessage, hne, ht]

/-- Witness for C1 at the spec's happy-path scenario inputs. -/
theorem rr_success_single_finalized_turn_witness :
    (sendMessage wState1 (.success wResp1)).1.messages =
      wState1.messages ++ [mkUserMsg (jsTrim wState1.inputText), mkAgentReply wResp1] ∧
    mkAgentReply wResp1 =
      { role := .ai, content := wResp1.response, isError := false,
        steps := some wResp1.steps, intent := some wResp1.intent,
        elapsed_ms := some wResp1.elapsed_ms } ∧
    (sendMessage wState1 (.success wResp1)).2 =
      [.agentCall { message := jsTrim wState1.inputText,
                    user_id := wState1.currentUser }] :=
  rr_success_single_finalized_turn wState1 wResp1 (by decide) (by decide)

/-- Counterexample to C2 as stated: a user send of the Chat.vue page whose
backend call fails appends exactly one synthesized assistant turn, and
that turn carries no error mark (isError is false), so the failed turn is
not error-marked at this send. -/
theorem chat_failure_turn_not_error_marked :
    (onSend wChat2 .failure).1.chatList =
      wChat2.chatList ++ [mkUserMsg wChat2.message, apologyMsg] ∧
    (onSend wChat2 .failure).1.loading = false ∧
    apologyMsg.role = .ai ∧
    apologyMsg.isError = false := by
  refine ⟨?_, ?_, rfl, rfl⟩ <;> decide

/-- C2 as amended: a user send whose backend call fails with anything
other than HTTP 401 appends, in each request-response implementation,
exactly one synthesized assistant turn after the user turn, carrying a
human-readable message, and leaves no dangling open turn; the AiAgent
component marks that turn as an error (isError true), while the Chat.vue
page's fixed apology turn carries no error mark. -/
theorem rr_failure_single_error_turn (s : AgentState) (e : ApiError)
    (cs : ChatState)
    (hne : jsTrim s.inputText ≠ "") (ht : s.isTyping = false)
    (h401 : e.status ≠ some 401)
    (hne2 : jsTrim cs.message ≠ "") (hl : cs.loading = false) :
    ((sendMessage s (.failure e)).1.messages =
      s.messages ++ [mkUserMsg (jsTrim s.inputText), mkErrorReply (errMsgOf e)] ∧
    (mkErrorReply (errMsgOf e)).isError = true ∧
    (mkErrorReply (errMsgOf e)).role = .ai ∧
    (mkErrorReply (errMsgOf e)).content = "抱歉，发生了错误：" ++ errMsgOf e) ∧
    ((onSend cs .failure).1.chatList =
      cs.chatList ++ [mkUserMsg cs.message, apologyMsg] ∧
    apologyMsg.role = .ai ∧
    apologyMsg.isError = false ∧
    apologyMsg.content = "抱歉，我现在遇到了一点技术问题，请稍后再试。") := by
  constructor
  · refine ⟨?_, rfl, rfl, rfl⟩
    simp [sendMessage, hne, ht, h401]
  · refine ⟨?_, rfl, rfl, rfl⟩
    simp [onSend, hne2, hl]

/-- Witness for the amended C2 at a concrete HTTP 500 failure in the
AiAgent component and a concrete failed send of the Chat.vue page. -/
theorem rr_failure_single_error_turn_witness :
    ((sendMessage wState2 (.failure wErr2)).1.messages =
      wState2.messages ++
        [mkUserMsg (jsTrim wState2.inputText), mkErrorReply (errMsgOf wErr2)] ∧
    (mkErrorReply (errMsgOf wErr2)).isError = true ∧
    (mkErrorReply (errMsgOf wErr2)).role = .ai ∧
    (mkErrorReply (errMsgOf wErr2)).content = "抱歉，发生了错误：" ++ errMsgOf wErr2) ∧
    ((onSend wChat2 .failure).1.chatList =
      wChat2.chatList ++ [mkUserMsg wChat2.message, apologyMsg] ∧
    apologyMsg.role = .ai ∧
    apologyMsg.isError = false ∧
    apologyMsg.content = "抱歉，我现在遇到了一点技术问题，请稍后再试。") :=
  rr_failure_single_error_turn wState2 wErr2 wChat2
    (by decide) (by decide) (by decide) (by decide) (by decide)

/-- C3: a user send rejected with HTTP 401 is handled as an expired
session, not as a generic failure: the stored credential is discarded, the
effects are exactly the backend call, the session-expired toast and the
navigation to the login route (so no generic-failure toast), and the
transcript is preserved, extended only by the user's own turn. -/
theorem rr_401_auth_expired (s : AgentState) (e : ApiError)
    (hne : jsTrim s.inputText ≠ "") (ht : s.isTyping = false)
    (h401 : e.status = some 401) :
    (sendMessage s (.failure e)).1.token = none ∧
    (sendMessage s (.failure e)).2 =
      [.agentCall { message := jsTrim s.inputText, user_id := s.currentUser },
        .toast "登录已过期，请重新登录", .navigate "/login"] ∧
    (sendMessage s (.failure e)).1.messages =
      s.messages ++ [mkUserMsg (jsTrim s.inputText)] := by
  refine ⟨?_, ?_, ?_⟩ <;> simp [sendMessage, hne, ht, h401]

/-- Witness for C3 at a concrete HTTP 401 failure. -/
theorem rr_401_auth_expired_witness :
    (sendMessage wState3 (.failure wErr3)).1.token = none ∧
    (sendMessage wState3 (.failure wErr3)).2 =
      [.agentCall { message := jsTrim wState3.inputText,
                    user_id := wState3.currentUser },
        .toast "登录已过期，请重新登录", .navigate "/login"] ∧
    (sendMessage wState3 (.failure wErr3)).1.messages =
      wState3.messages ++ [mkUserMsg (jsTrim wState3.inputText)] :=
  rr_401_auth_expired wState3 wErr3 (by decide) (by decide) (by decide)

/-- C4: opening the chat surface with no stored credential leaves the
whole component state unchanged (in particular the window ends closed and
the transcript untouched) and produces exactly a login prompt toast and a
navigation to the login route; no network effect of any kind is issued. -/
theorem open_gate_unauthenticated (s : AgentState) (f : Option UserId)
    (hclosed : s.isOpen = false) (htok : s.token = none) :
    toggleWindow s f = (s, [.toast "请先登录", .navigate "/login"]) ∧
    (toggleWindow s f).1.isOpen = false ∧
    (toggleWindow s f).1.messages = s.messages := by
  have heq : toggleWindow s f = (s, [.toast "请先登录", .navigate "/login"]) := by
    cases s with
    | mk o t i m tok cu => simp_all [toggleWindow]
  exact ⟨heq, by rw [heq]; exact hclosed, by rw [heq]⟩

/-- Witness for C4 at a concrete credential-less state. -/
theorem open_gate_unauthenticated_witness :
    toggleWindow wState4 none = (wState4, [.toast "请先登录", .navigate "/login"]) ∧
    (toggleWindow wState4 none).1.isOpen = false ∧
    (toggleWindow wState4 none).1.messages = wState4.messages :=
  open_gate_unauthenticated wState4 none (by decide) (by decide)

/-- C5: on every terminal outcome of a user send (successful reply,
credential rejection, or any other failure) the typing flag of the AiAgent
component ends false, and likewise the loading flag of the Chat.vue page,
so the UI is never left permanently in the thinking state. -/
theorem typing_indicator_cleared (s : AgentState) (o : SendOutcome)
    (cs : ChatState) (co : ChatOutcome)
    (hne : jsTrim s.inputText ≠ "") (ht : s.isTyping = false)
    (hne2 : jsTrim cs.message ≠ "") (hl : cs.loading = false) :
    (sendMessage s o).1.isTyping = false ∧ (onSend cs co).1.loading = false := by
  constructor
  · cases o with
    | success r => simp [sendMessage, hne, ht]
    | failure e =>
        by_cases h401 : e.status = some 401 <;> simp [sendMessage, hne, ht, h401]
  · cases co <;> simp [onSend, hne2, hl]

/-- Witness for C5 at a concrete network failure in both components. -/
theorem typing_indicator_cleared_witness :
    (sendMessage wState5 (.failure wErr5)).1.isTyping = false ∧
    (onSend wChat5 .failure).1.loading = false :=
  typing_indicator_cleared wState5 (.failure wErr5) wChat5 .failure
    (by decide) (by decide) (by decide) (by decide)

/-- Counterexample to C6 as stated: the component issues an agent call
whose message field has 2001 characters — the client never enforces the
2000-character upper bound of the request contract. -/
theorem rr_request_can_exceed_2000_chars :
    Effect.agentCall { message := longA, user_id := none } ∈
      (sendMessage cexState (.success cexResp)).2 ∧
    longA.length = 2001 ∧ ¬(longA.length ≤ 2000) := by
  refine ⟨?_, longA_length, by rw [longA_length]; omega⟩
  have heff : (sendMessage cexState (.success cexResp)).2 =
      [.agentCall { message := longA, user_id := none }] := by
    simp [sendMessage, cexState, jsTrim_longA, longA_ne_empty]
  rw [heff]
  exact List.mem_singleton.2 rfl

/-- C6 as amended: every agent call issued by a send carries the user's
trimmed, non-empty input as the message (with no upper length bound
enforced client-side) and the current user's id, when one is stored, as
user_id. -/
theorem rr_request_payload_shape (s : AgentState) (o : SendOutcome)
    (req : AgentChatRequest)
    (hne : jsTrim s.inputText ≠ "") (ht : s.isTyping = false)
    (hmem : Effect.agentCall req ∈ (sendMessage s o).2) :
    req.message = jsTrim s.inputText ∧ req.message ≠ "" ∧
    req.user_id = s.currentUser := by
  have hreq : req = { message := jsTrim s.inputText, user_id := s.currentUser } := by
    cases o with
    | success r => simpa [sendMessage, hne, ht] using hmem
    | failure e =>
        by_cases h401 : e.status = some 401 <;>
          simpa [sendMessage, hne, ht, h401] using hmem
  subst hreq
  exact ⟨rfl, hne, rfl⟩

/-- Witness for the amended C6: the call issued for a padded input carries
exactly the trimmed text and the stored string-typed user id. -/
theorem rr_request_payload_shape_witness :
    ({ message := "帮我选车", user_id := some (.str "u-9") } : AgentChatRequest).message
      = jsTrim wState6.inputText ∧
    ({ message := "帮我选车", user_id := some (.str "u-9") } : AgentChatRequest).message
      ≠ "" ∧
    ({ message := "帮我选车", user_id := some (.str "u-9") } : AgentChatRequest).user_id
      = wState6.currentUser :=
  rr_request_payload_shape wState6 (.success wResp6)
    { message := "帮我选车", user_id := some (.str "u-9") }
    (by decide) (by decide) (by decide)

/-- C7: a streaming-channel closure with code 1008 yields the
authentication-expired error state and any other closure code yields the
transient error state (transport modelled from the spec, the streaming
client is not under src/). -/
theorem closure_code_1008_mapping (code : Nat) (h : code ≠ 1008) :
    streamingClosureState 1008 = .Errored .AuthExpired ∧
    streamingClosureState code = .Errored .Transient :=
  ⟨by simp [streamingClosureState], by simp [streamingClosureState, h]⟩

/-- Witness for C7 at the ordinary network-loss closure code 1006. -/
theorem closure_code_1008_mapping_witness :
    streamingClosureState 1008 = .Errored .AuthExpired ∧
    streamingClosureState 1006 = .Errored .Transient :=
  closure_code_1008_mapping 1006 (by decide)

/-- C8: a send invoked with blank (empty or whitespace-only) input, or
while a reply is still pending, is a complete no-op in both components:
the returned state is exactly the old state and no effect (in particular
no network call) is produced. -/
theorem send_guard_noop (s : AgentState) (o : SendOutcome)
    (cs : ChatState) (co : ChatOutcome)
    (hg : jsTrim s.inputText = "" ∨ s.isTyping = true)
    (hg2 : jsTrim cs.message = "" ∨ cs.loading = true) :
    sendMessage s o = (s, []) ∧ onSend cs co = (cs, []) := by
  constructor
  · rcases hg with h | h <;> simp [sendMessage, h]
  · rcases hg2 with h | h <;> simp [onSend, h]

/-- Witness for C8: whitespace-only input in the AiAgent component and a
pending reply in the Chat.vue page. -/
theorem send_guard_noop_witness :
    sendMessage wState8 (.success wResp8) = (wState8, []) ∧
    onSend wChat8 .failure = (wChat8, []) :=
  send_guard_noop wState8 (.success wResp8) wChat8 .failure
    (Or.inl (by decide)) (Or.inr (by decide))

/-- C9: across any sequence of open/close toggles, sends, input edits and
credential changes started from the freshly mounted component, the
transcript contains the welcome turn at most once, and never past the
first entry (so when present it is the first entry). -/
theorem welcome_turn_unique (tok : Option String) (user : Option UserId)
    (ops : List AgentOp) :
    (runOps (initState tok user) ops).messages.count welcomeMsg ≤ 1 ∧
    (runOps (initState tok user) ops).messages.tail.count welcomeMsg = 0 := by
  have hinv : welcomeOnlyFirst (runOps (initState tok user) ops).messages :=
    runOps_preserves ops (initState tok user)
      (by intro m hm; simp [initState] at hm)
  exact count_welcome_le_one _ hinv

/-- C10: a send failing with HTTP 401 appends no assistant turn of any
kind — the just-appended user turn is the last transcript entry — and in
addition to navigating to the login route it closes the chat window. -/
theorem rr_401_no_assistant_turn (s : AgentState) (e : ApiError)
    (hne : jsTrim s.inputText ≠ "") (ht : s.isTyping = false)
    (h401 : e.status = some 401) :
    (sendMessage s (.failure e)).1.messages =
      s.messages ++ [mkUserMsg (jsTrim s.inputText)] ∧
    (sendMessage s (.failure e)).1.messages.getLast? =
      some (mkUserMsg (jsTrim s.inputText)) ∧
    (sendMessage s (.failure e)).1.isOpen = false ∧
    Effect.navigate "/login" ∈ (sendMessage s (.failure e)).2 := by
  refine ⟨?_, ?_, ?_, ?_⟩ <;> simp [sendMessage, hne, ht, h401]

/-- Witness for C10 at a concrete 401 failure on a longer transcript. -/
theorem rr_401_no_assistant_turn_witness :
    (sendMessage wState10 (.failure wErr10)).1.messages =
      wState10.messages ++ [mkUserMsg (jsTrim wState10.inputText)] ∧
    (sendMessage wState10 (.failure wErr10)).1.messages.getLast? =
      some (mkUserMsg (jsTrim wState10.inputText)) ∧
    (sendMessage wState10 (.failure wErr10)).1.isOpen = false ∧
    Effect.navigate "/login" ∈ (sendMessage wState10 (.failure wErr10)).2 :=
  rr_401_no_assistant_turn wState10 wErr10 (by decide) (by decide) (by decide)
